import Mathlib

/-!
Shallow embedding of `backend/tools/staatsblad_scraper.py` (class
`StaatsbladScraper`): the company-data extraction pipeline of the
Staatsblad Monitor scraper, together with theorems checking the
natural-language specification against it.

Modelling conventions:
* Strings are ASCII; Python `str.strip`, `str.lower`, `re` character
  classes `\d`, `\s` and `[^\s]` are modelled on ASCII characters.
* The BeautifulSoup document tree is modelled at the API boundary the
  scraper uses: a `Soup` holds, for each query the scraper issues
  (`find('h1')`, `find_all('table')`, `find(string=...)`,
  `find_all('a', href=True)`, `get_text()`), the result of that query.
  Elements are modelled as single-text-segment nodes, so
  `get_text(strip=True)` is `pyStrip` of the stored text.
* Each extractor body sits inside a broad `try/except` in the source;
  a Python runtime exception raised by the first tree query inside the
  `try` block (something the pure tree data cannot itself produce) is
  modelled by an explicit per-extractor fault channel in `Soup.faults`.
* Loggers are no-ops; `datetime.now()` is an explicit `now` argument;
  the HTTP client plus `raise_for_status` plus `BeautifulSoup` parsing
  is a function `String → Except String Soup` (error = exception
  message).
* Python `dict` values of heterogeneous type are modelled by the `Val`
  union; dict insertion (`d[k] = v`, replace-in-place or append) is
  `dinsert` / `sinsert`.
-/

/-- Python ASCII whitespace characters, as matched by `\s` and stripped
by `str.strip()`. -/
def isPyWs (c : Char) : Bool :=
  c = ' ' || c = '\t' || c = '\n' || c = '\r' || c = '\x0b' || c = '\x0c'

/-- Python `str.strip()`: drop leading and trailing whitespace. -/
def pyStrip (s : String) : String :=
  ⟨((s.data.dropWhile (fun c => isPyWs c)).reverse.dropWhile (fun c => isPyWs c)).reverse⟩

/-- Does `hay` contain `needle` as a contiguous sublist (Python `in` /
`re.search` of a literal pattern)? -/
def containsFrom (needle : List Char) : List Char → Bool
  | [] => needle.isEmpty
  | c :: cs => needle.isPrefixOf (c :: cs) || containsFrom needle cs

/-- Python `needle in hay` on strings. -/
def strContains (hay needle : String) : Bool :=
  containsFrom needle.data hay.data

/-- Python `str.lower()` (ASCII). -/
def pyLower (s : String) : String :=
  ⟨s.data.map Char.toLower⟩

/-- Python `str.startswith(pre)`. -/
def strStartsWith (s pre : String) : Bool :=
  pre.data.isPrefixOf s.data

/-- Python `str.endswith(suf)`. -/
def strEndsWith (s suf : String) : Bool :=
  suf.data.isSuffixOf s.data

/-- Python `str.split(sep)` for a one-character separator: split at
every occurrence, keeping empty segments (the result is never
empty). -/
def splitOnChar (sep : Char) : List Char → List (List Char)
  | [] => [[]]
  | c :: cs =>
      match splitOnChar sep cs with
      | [] => [[]]
      | h :: t => if c = sep then [] :: h :: t else (c :: h) :: t

namespace StaatsbladScraper

/-- `self.base_url` from `StaatsbladScraper.__init__`. -/
def base_url : String := "https://staatsbladmonitor.be"

/-- `_clean_company_number`: `re.sub(r'[.\s]', '', company_number)` —
remove dots and whitespace characters. -/
def clean_company_number (company_number : String) : String :=
  ⟨company_number.data.filter (fun c => !(c = '.' || isPyWs c))⟩

/-! ### The document model -/

/-- Result of `parent.find_all(...)` around a found "Directors" marker
(`_extract_directors`): whether the registration-required notice was
found in the parent, and the raw texts of the `li`/`tr` elements found
in the parent. -/
structure DirectorsParent where
  registration_msg : Bool
  items : List String
deriving DecidableEq

/-- Per-extractor fault channels: `some msg` models a Python runtime
exception with message `msg` raised by the first tree query inside the
corresponding extractor's `try` block. -/
structure Faults where
  basic : Option String
  fin : Option String
  act : Option String
  pub : Option String
  dir : Option String
  pdf : Option String
deriving DecidableEq

/-- No extractor faults. -/
def noFaults : Faults := ⟨none, none, none, none, none, none⟩

/-- An `<a href=...>` element: its `href` attribute and raw text. -/
structure Anchor where
  href : String
  text : String
deriving DecidableEq

/-- The parsed document, modelled at the BeautifulSoup API boundary
used by the scraper.  A table is a list of rows (`find_all('tr')`),
each row a list of raw cell texts (`find_all(['td','th'])`).  For the
marker-based sections, the outer `Option` is the `soup.find(string=…)`
result and the inner `Option` is the marker's `.parent`; the carried
list holds the raw texts of the elements collected by
`find_all_next(...)` from the parent (`li` with limit 10 for
activities, `tr`/`li` with limit 200 for publications). -/
structure Soup where
  h1 : Option String
  h2 : Option String
  titleEl : Option String
  tables : List (List (List String))
  addressNode : Option String
  activities_section : Option (Option (List String))
  publications_section : Option (Option (List String))
  directors_section : Option (Option DirectorsParent)
  anchors : List Anchor
  fullText : String
  faults : Faults
deriving DecidableEq

/-! ### Output record types -/

/-- One row of the financial table (`financial_year` dict in
`_extract_financial_data`). -/
structure FinancialYear where
  year_end : String
  assets : String
  gross_margin : String
  operating_profit : String
  taxes : String
  equity : String
  debts : String
deriving DecidableEq

/-- One activity entry (`_extract_activities`). -/
structure Activity where
  activity : String
  nace_code : Option String
deriving DecidableEq

/-- One publication entry (`_extract_publications`). -/
structure Publication where
  date : String
  type : String
  full_text : String
deriving DecidableEq

/-- The directors info dict (`_extract_directors`); the `directors` key
is present only when set in the available branch. -/
structure DirectorsInfo where
  available : Bool
  requires_registration : Bool
  message : String
  directors : Option (List String)
deriving DecidableEq

/-- One PDF link entry (`pdf_info` dict in `_extract_pdf_links`). -/
structure PdfLink where
  title : String
  url : String
  filename : String
  type : String
deriving DecidableEq

/-- Values stored in the company-data dict built by
`_parse_company_page` (Python dicts are heterogeneous). -/
inductive Val where
  | vStr (s : String)
  | vFin (l : List FinancialYear)
  | vAct (l : List Activity)
  | vPub (l : List Publication)
  | vDir (d : DirectorsInfo)
  | vPdf (l : List PdfLink)
deriving DecidableEq

/-- Python dict insertion `d[k] = v` for a string-keyed `Val` dict:
replace in place if the key exists, else append (insertion order
preserved). -/
def dinsert (d : List (String × Val)) (k : String) (v : Val) : List (String × Val) :=
  match d with
  | [] => [(k, v)]
  | (k0, v0) :: rest => if k0 = k then (k0, v) :: rest else (k0, v0) :: dinsert rest k v

/-- Python dict insertion for a string-to-string dict. -/
def sinsert (d : List (String × String)) (k : String) (v : String) : List (String × String) :=
  match d with
  | [] => [(k, v)]
  | (k0, v0) :: rest => if k0 = k then (k0, v) :: rest else (k0, v0) :: sinsert rest k v

/-! ### Basic-info extractor -/

/-- The Dutch→English `key_mapping` table in `_extract_basic_info`. -/
def key_mapping : List (String × String) :=
  [("vennootschapsnaam", "company_name"),
   ("vennootschapsvorm", "legal_form"),
   ("ondernemingsnummer", "company_number"),
   ("status", "status"),
   ("juridische situatie", "legal_situation"),
   ("adres", "address"),
   ("laatste publicatie", "last_publication"),
   ("laatste jaarrekening", "last_annual_report")]

/-- Process one table row in `_extract_basic_info`: rows with at least
2 cells contribute cell 0 (lower-cased, stripped) as key — translated
through `key_mapping` when listed — and cell 1 (stripped) as value. -/
def basicInfoRow (info : List (String × String)) (row : List String) :
    List (String × String) :=
  if 2 ≤ row.length then
    let key := pyLower (pyStrip (row.getD 0 ""))
    let value := pyStrip (row.getD 1 "")
    match key_mapping.lookup key with
    | some mapped => sinsert info mapped value
    | none => sinsert info key value
  else info

/-- `_extract_basic_info`: page title as `company_name` (h1, else h2,
else title), two-column table rows as key/value pairs, and the
address-heuristic text node as `full_address`.  A fault at the first
tree query makes the `except` branch return the empty partial dict. -/
def extract_basic_info (s : Soup) : List (String × String) :=
  if s.faults.basic.isSome then []
  else
    let info : List (String × String) := []
    let info :=
      match s.h1 <|> s.h2 <|> s.titleEl with
      | some t => sinsert info "company_name" (pyStrip t)
      | none => info
    let info := s.tables.foldl (fun acc t => t.foldl basicInfoRow acc) info
    match s.addressNode with
    | some a => sinsert info "full_address" (pyStrip a)
    | none => info

/-! ### Financial-data extractor -/

/-- The financial-table keyword set in `_extract_financial_data`. -/
def fin_keywords : List String :=
  ["activa", "brutomarge", "bedrijfswinst", "eigen vermogen", "schulden"]

/-- Table classification in `_extract_financial_data`: join the texts
of the table's first 5 cells with spaces; the table is financial when
the lower-cased join contains one of the keywords. -/
def isFinancialTable (t : List (List String)) : Bool :=
  let headers := t.foldl (fun acc r => acc ++ r) []
  let header_text := String.intercalate " " ((headers.take 5).map pyStrip)
  fin_keywords.any (fun kw => strContains (pyLower header_text) kw)

/-- Python list indexing `cells[n]`: `IndexError` (modelled as
`Except.error ()`) when out of range. -/
def idx (cells : List String) (n : Nat) : Except Unit String :=
  match cells.get? n with
  | some x => .ok x
  | none => .error ()

/-- The record construction inside the per-row `try` of
`_extract_financial_data`: positional access to cells 0–5, and to
cell 6 only when the row has more than 6 cells (else `debts` is the
empty string).  An out-of-range access raises (`Except.error`). -/
def buildFinancialYearE (cells : List String) : Except Unit FinancialYear := do
  let c0 ← idx cells 0
  let c1 ← idx cells 1
  let c2 ← idx cells 2
  let c3 ← idx cells 3
  let c4 ← idx cells 4
  let c5 ← idx cells 5
  let debts ← if 6 < cells.length then do
      let c6 ← idx cells 6
      pure (pyStrip c6)
    else pure ""
  pure ⟨pyStrip c0, pyStrip c1, pyStrip c2, pyStrip c3, pyStrip c4, pyStrip c5, debts⟩

/-- One data row of a financial table: the `len(cells) >= 6` guard,
then the `try` block (`except IndexError: continue` drops the row). -/
def rowRecord (cells : List String) : Option FinancialYear :=
  if 6 ≤ cells.length then
    match buildFinancialYearE cells with
    | .ok y => some y
    | .error _ => none
  else none

/-- `_extract_financial_data`: for every table classified as financial,
skip the header row and collect a record from each remaining row via
`rowRecord`.  A fault returns the empty list built so far. -/
def extract_financial_data (s : Soup) : List FinancialYear :=
  if s.faults.fin.isSome then []
  else
    s.tables.foldl
      (fun acc t =>
        if isFinancialTable t then acc ++ (t.drop 1).filterMap rowRecord else acc)
      []

/-! ### Activities extractor -/

/-- `re.search(r'\((\d{4,5})\)', text)` at one position: an opening
parenthesis, four digits, then greedily a fifth digit, then a closing
parenthesis; returns the digit group. -/
def naceAt : List Char → Option String
  | '(' :: d1 :: d2 :: d3 :: d4 :: x :: rest =>
      if d1.isDigit && d2.isDigit && d3.isDigit && d4.isDigit then
        if x.isDigit then
          match rest with
          | ')' :: _ => some ⟨[d1, d2, d3, d4, x]⟩
          | _ => none
        else if x = ')' then some ⟨[d1, d2, d3, d4]⟩
        else none
      else none
  | _ => none

/-- Leftmost match of the NACE pattern over the whole text. -/
def naceSearch : List Char → Option String
  | [] => none
  | c :: cs =>
      match naceAt (c :: cs) with
      | some g => some g
      | none => naceSearch cs

/-- `_extract_nace_code`: search for a parenthesized 4–5 digit group. -/
def extract_nace_code (activity_text : String) : Option String :=
  naceSearch activity_text.data

/-- `_extract_activities`: from the items collected after the
Activities/NACE marker, keep entries with non-empty stripped text not
starting with `'('`. -/
def extract_activities (s : Soup) : List Activity :=
  if s.faults.act.isSome then []
  else
    match s.activities_section with
    | none => []
    | some none => []
    | some (some items) =>
        items.filterMap (fun raw =>
          let activity_text := pyStrip raw
          if activity_text ≠ "" && !(strStartsWith activity_text "(") then
            some ⟨activity_text, extract_nace_code activity_text⟩
          else none)

/-! ### Publications extractor -/

/-- The `(\d{2}-\d{2}-\d{4})` group at one position: exactly
`DD-MM-YYYY` shaped digits/dashes; returns the matched date and the
remaining characters. -/
def matchDateAt : List Char → Option (String × List Char)
  | d1 :: d2 :: h1 :: d3 :: d4 :: h2 :: y1 :: y2 :: y3 :: y4 :: rest =>
      if d1.isDigit && d2.isDigit && h1 = '-' && d3.isDigit && d4.isDigit && h2 = '-'
          && y1.isDigit && y2.isDigit && y3.isDigit && y4.isDigit then
        some (⟨[d1, d2, h1, d3, d4, h2, y1, y2, y3, y4]⟩, rest)
      else none
  | _ => none

/-- Backtracking of greedy `\s+`: the largest `w ≤ maxW` with `w ≥ 1`
such that the character at index `w` of `rest` exists and is not a
newline (so that `.+` can start there). -/
def findW (rest : List Char) : Nat → Option Nat
  | 0 => none
  | w + 1 =>
      match rest.get? (w + 1) with
      | some c => if c ≠ '\n' then some (w + 1) else findW rest w
      | none => findW rest w

/-- The `\s+(.+)` tail of the publications pattern against `rest`:
greedy run of whitespace (with backtracking), then the greedy group of
non-newline characters. -/
def matchTailAt (rest : List Char) : Option String :=
  let maxW := (rest.takeWhile isPyWs).length
  if maxW = 0 then none
  else
    match findW rest maxW with
    | some w => some ⟨(rest.drop w).takeWhile (fun c => c ≠ '\n')⟩
    | none => none

/-- The full publications pattern `(\d{2}-\d{2}-\d{4})\s+(.+)` at one
position: returns (group 1, group 2). -/
def matchPubAt (l : List Char) : Option (String × String) :=
  (matchDateAt l).bind (fun p => (matchTailAt p.2).map (fun g2 => (p.1, g2)))

/-- `re.search` of the publications pattern: leftmost position at which
the full pattern matches. -/
def searchDateTypeAux : List Char → Option (String × String)
  | [] => none
  | c :: cs =>
      match matchPubAt (c :: cs) with
      | some r => some r
      | none => searchDateTypeAux cs

/-- `re.search(r'(\d{2}-\d{2}-\d{4})\s+(.+)', entry_text)`. -/
def searchDateType (entry_text : String) : Option (String × String) :=
  searchDateTypeAux entry_text.data

/-- `_extract_publications`: for each entry collected after the
publications marker, emit a record when the date/type pattern is found
anywhere in its stripped text. -/
def extract_publications (s : Soup) : List Publication :=
  if s.faults.pub.isSome then []
  else
    match s.publications_section with
    | none => []
    | some none => []
    | some (some entries) =>
        entries.filterMap (fun raw =>
          let entry_text := pyStrip raw
          (searchDateType entry_text).map
            (fun p => ⟨p.1, pyStrip p.2, entry_text⟩))

/-! ### Directors extractor -/

/-- The default directors dict built before the `try` block of
`_extract_directors`. -/
def defaultDirectorsInfo : DirectorsInfo :=
  ⟨false, true, "Directors information requires registration", none⟩

/-- `_extract_directors`: no marker, no parent, or a fault all return
the default dict; with a registration notice the message is (re)set to
the default; otherwise a non-empty element list makes the info
available, keeping the non-empty stripped texts. -/
def extract_directors (s : Soup) : DirectorsInfo :=
  if s.faults.dir.isSome then defaultDirectorsInfo
  else
    match s.directors_section with
    | none => defaultDirectorsInfo
    | some none => defaultDirectorsInfo
    | some (some p) =>
        if p.registration_msg then
          { defaultDirectorsInfo with message := "Directors information requires registration" }
        else if p.items ≠ [] then
          { defaultDirectorsInfo with
              available := true,
              directors := some ((p.items.map pyStrip).filter (fun t => t ≠ "")) }
        else defaultDirectorsInfo

/-! ### PDF-link extractor -/

/-- `_extract_filename_from_url`: last `/`-separated segment, query
string stripped, `.pdf` appended when missing.  (The surrounding
`try/except` in the source is unreachable for string input.) -/
def extract_filename_from_url (url : String) : String :=
  let filename : String := ⟨(splitOnChar '/' url.data).getLastD []⟩
  let filename : String := ⟨(splitOnChar '?' filename.data).headD []⟩
  if strEndsWith filename ".pdf" then filename else filename ++ ".pdf"

/-- `_classify_pdf_type`: keyword sets checked in priority order
against the lower-cased link text and URL. -/
def classify_pdf_type (link_text url : String) : String :=
  let text_lower := pyLower link_text
  let url_lower := pyLower url
  let hit := fun (kws : List String) =>
    kws.any (fun kw => strContains text_lower kw || strContains url_lower kw)
  if hit ["jaarrekening", "annual", "financial"] then "annual_report"
  else if hit ["statuten", "articles", "constitution"] then "articles_of_association"
  else if hit ["publicatie", "publication", "gazette"] then "official_publication"
  else if hit ["verslag", "report"] then "report"
  else if hit ["balans", "balance"] then "balance_sheet"
  else "document"

/-- One of the `pdf_patterns` probes: `re.search(r'\.pdf$', s)` (`$`
also matches just before a trailing newline), or literal-substring
search for the other keywords. -/
def matchesPdfPattern (s : String) : Bool :=
  strEndsWith s ".pdf" || strEndsWith s ".pdf\n"
    || strContains s "jaarrekening" || strContains s "financial"
    || strContains s "statement" || strContains s "verslag"
    || strContains s "publicatie"

/-- The anchor pass of `_extract_pdf_links` for a single anchor:
lower-case href and link text, probe the PDF patterns, resolve the URL
against the base URL, and build the entry. -/
def anchorEntry (a : Anchor) : Option PdfLink :=
  let href := pyLower a.href
  let link_text := pyLower (pyStrip a.text)
  let is_pdf := matchesPdfPattern href || matchesPdfPattern link_text
    || strEndsWith href ".pdf"
  if is_pdf then
    let full_url :=
      if strStartsWith href "/" then base_url ++ href
      else if strStartsWith href "http" then href
      else base_url ++ "/" ++ href
    some ⟨pyStrip a.text, full_url, extract_filename_from_url full_url,
          classify_pdf_type link_text href⟩
  else none

/-- Check for `.pdf` at offset `j` into the non-whitespace run. -/
def checkDotPdfAt (run : List Char) (j : Nat) : Bool :=
  (run.drop j).take 4 = ['.', 'p', 'd', 'f']

/-- Backtracking of greedy `[^\s]+` in `r'https?://[^\s]+\.pdf'`: the
largest `j ≥ 1` at which `.pdf` follows inside the run. -/
def maxPdfSplit (run : List Char) : Nat → Option Nat
  | 0 => none
  | j + 1 => if checkDotPdfAt run (j + 1) then some (j + 1) else maxPdfSplit run j

/-- Match `r'https?://[^\s]+\.pdf'` at one position: scheme, then the
greedy non-whitespace run split so that `.pdf` ends the match; returns
the matched URL and the characters after the match. -/
def matchPdfUrlAt (l : List Char) : Option (String × List Char) :=
  let scheme : Option (String × List Char) :=
    if "https://".data.isPrefixOf l then some ("https://", l.drop 8)
    else if "http://".data.isPrefixOf l then some ("http://", l.drop 7)
    else none
  match scheme with
  | none => none
  | some (sch, rest) =>
      let run := rest.takeWhile (fun c => !isPyWs c)
      match maxPdfSplit run run.length with
      | none => none
      | some j => some (sch ++ ⟨run.take (j + 4)⟩, rest.drop (j + 4))

/-- Scan for non-overlapping leftmost matches (`re.findall`); the fuel
argument bounds the recursion and is chosen large enough to be
irrelevant. -/
def findPdfUrlsAux : Nat → List Char → List String
  | 0, _ => []
  | _ + 1, [] => []
  | fuel + 1, c :: cs =>
      match matchPdfUrlAt (c :: cs) with
      | some (url, rest) => url :: findPdfUrlsAux fuel rest
      | none => findPdfUrlsAux fuel cs

/-- `re.findall(r'https?://[^\s]+\.pdf', text_content)`. -/
def findPdfUrls (text_content : String) : List String :=
  findPdfUrlsAux (text_content.data.length + 1) text_content.data

/-- The bare-text URL entry synthesized in the second pass of
`_extract_pdf_links`. -/
def textUrlEntry (url : String) : PdfLink :=
  ⟨"PDF Document - " ++ extract_filename_from_url url, url,
   extract_filename_from_url url, classify_pdf_type "" url⟩

/-- The second pass of `_extract_pdf_links`: each bare-text URL is
appended only when no entry with that exact URL string is already in
the list (which keeps growing). -/
def textPass (init : List PdfLink) (urls : List String) : List PdfLink :=
  urls.foldl
    (fun acc url =>
      if url ∈ acc.map PdfLink.url then acc else acc ++ [textUrlEntry url])
    init

/-- `_extract_pdf_links`: the anchor pass (no deduplication), then the
bare-text pass over `soup.get_text()`. -/
def extract_pdf_links (s : Soup) : List PdfLink :=
  if s.faults.pdf.isSome then []
  else textPass (s.anchors.filterMap anchorEntry) (findPdfUrls s.fullText)

/-! ### Record assembler -/

/-- `_parse_company_page`: the company-data dict — company number and
timestamp, merged with the basic-info dict, then the five collection
fields. -/
def parse_company_page (s : Soup) (company_number now : String) :
    List (String × Val) :=
  let data : List (String × Val) :=
    [("company_number", .vStr company_number), ("scraped_at", .vStr now)]
  let data := (extract_basic_info s).foldl
    (fun d kv => dinsert d kv.1 (.vStr kv.2)) data
  let data := dinsert data "financial_data" (.vFin (extract_financial_data s))
  let data := dinsert data "activities" (.vAct (extract_activities s))
  let data := dinsert data "publications" (.vPub (extract_publications s))
  let data := dinsert data "directors" (.vDir (extract_directors s))
  dinsert data "pdf_links" (.vPdf (extract_pdf_links s))

/-- The result envelope returned by `search_company`: on failure the
`error` key is present and `data` is the small error dict. -/
structure Envelope where
  success : Bool
  error : Option String
  data : List (String × Val)
  metadata : List (String × String)
deriving DecidableEq

/-- The URL `search_company` constructs for an input identifier. -/
def searchUrl (company_number : String) : String :=
  base_url ++ "/bedrijfsfiche.html?ondernemingsnummer="
    ++ clean_company_number company_number

/-- `search_company`: clean the number, build the URL, fetch and parse
(`http` models `http_client.get` + `raise_for_status` +
`BeautifulSoup`, any of which may raise), and wrap the result; any
exception is caught and wrapped as the failure envelope, whose
metadata carries only source, country, request time and the raw input
number. -/
def search_company (http : String → Except String Soup) (now company_number : String) :
    Envelope :=
  let clean := clean_company_number company_number
  let url := base_url ++ "/bedrijfsfiche.html?ondernemingsnummer=" ++ clean
  match http url with
  | .ok soup =>
      { success := true
        error := none
        data := parse_company_page soup clean now
        metadata := [("source", "Staatsblad Monitor"), ("country", "Belgium"),
                     ("request_time", now), ("company_number_input", company_number),
                     ("company_number_clean", clean), ("url", url)] }
  | .error e =>
      { success := false
        error := some e
        data := [("status", .vStr "ERROR"), ("company_number", .vStr company_number)]
        metadata := [("source", "Staatsblad Monitor"), ("country", "Belgium"),
                     ("request_time", now), ("company_number_input", company_number)] }

end StaatsbladScraper

/-! ## Theorems checking the specification claims -/

open StaatsbladScraper

/-- A document on which every query comes back empty. -/
def emptySoup : Soup :=
  { h1 := none, h2 := none, titleEl := none, tables := [], addressNode := none,
    activities_section := none, publications_section := none, directors_section := none,
    anchors := [], fullText := "", faults := noFaults }

/-- A document whose only feature is a single annual-report anchor. -/
def soupAnnualReportAnchor : Soup :=
  { emptySoup with anchors := [⟨"/docs/jaarrekening2023.pdf", "Annual report"⟩] }

/-- Helper for the financial-row claims: a row with at least 6 cells
always passes the whole `try` body of `_extract_financial_data`
without an `IndexError`. -/
theorem buildFinancialYearE_ok : ∀ cells : List String, 6 ≤ cells.length →
    ∃ y, buildFinancialYearE cells = Except.ok y := by
  intro cells h
  rcases cells with _ | ⟨a, cells⟩
  · simp at h
  rcases cells with _ | ⟨b, cells⟩
  · simp at h
  rcases cells with _ | ⟨c, cells⟩
  · simp at h
  rcases cells with _ | ⟨d, cells⟩
  · simp at h
  rcases cells with _ | ⟨e, cells⟩
  · simp at h
  rcases cells with _ | ⟨f, cells⟩
  · simp only [List.length_cons, List.length_nil] at h
    omega
  rcases cells with _ | ⟨g, rs⟩
  · exact ⟨_, rfl⟩
  · refine ⟨⟨pyStrip a, pyStrip b, pyStrip c, pyStrip d, pyStrip e, pyStrip f, pyStrip g⟩, ?_⟩
    simp only [buildFinancialYearE, idx, List.get?]
    split
    · rfl
    · rename_i hcon
      simp only [List.length_cons] at hcon
      omega

/-- C10: in the financial-data extractor, under the `len(cells) >= 6`
guard, the positional accesses to cells 0–5 always succeed and cell 6
is read only when more than 6 cells exist, so the per-record
`IndexError` catch branch is unreachable and the guarded row always
yields a record. -/
theorem c10_guarded_row_total (cells : List String) (h : 6 ≤ cells.length) :
    ∃ y, buildFinancialYearE cells = Except.ok y ∧ rowRecord cells = some y := by
  obtain ⟨y, hy⟩ := buildFinancialYearE_ok cells h
  refine ⟨y, hy, ?_⟩
  unfold rowRecord
  rw [if_pos h, hy]

/-- C10 witness: a concrete guarded row. -/
theorem c10_witness :
    ∃ y, buildFinancialYearE ["2023-12-31", "1000", "200", "50", "10", "500"] = Except.ok y
      ∧ rowRecord ["2023-12-31", "1000", "200", "50", "10", "500"] = some y :=
  c10_guarded_row_total ["2023-12-31", "1000", "200", "50", "10", "500"] (by decide)

/-- C8: the identifier normalizer is idempotent. -/
theorem c8_normalize_idempotent (x : String) :
    clean_company_number (clean_company_number x) = clean_company_number x := by
  have h : ∀ l : List Char,
      (l.filter fun ch => !(ch = '.' || isPyWs ch)).filter (fun ch => !(ch = '.' || isPyWs ch))
        = l.filter fun ch => !(ch = '.' || isPyWs ch) := by
    intro l
    rw [List.filter_filter]
    congr 1
    funext a
    exact Bool.and_self _
  show String.mk ((x.data.filter fun ch => !(ch = '.' || isPyWs ch)).filter
      (fun ch => !(ch = '.' || isPyWs ch)))
    = String.mk (x.data.filter fun ch => !(ch = '.' || isPyWs ch))
  exact congrArg String.mk (h x.data)

/-- C7 counterexample: the claim says the normalizer's output is a
digit-only string for every input, but non-digit characters other than
dots and whitespace pass through unchanged. -/
theorem c7_counterexample :
    ¬ ((clean_company_number "BE 0403.200.393").data.all Char.isDigit = true) := by
  decide

/-- C7 (amended): the normalizer removes exactly the dot and whitespace
characters; when the input consists only of digits, dots and
whitespace, the output is digit-only. -/
theorem c7_normalizer (x : String) :
    ((clean_company_number x).data.all fun ch => !(ch = '.' || isPyWs ch)) = true
  ∧ ((x.data.all fun ch => ch.isDigit || ch = '.' || isPyWs ch) = true →
      (clean_company_number x).data.all Char.isDigit = true) := by
  constructor
  · rw [List.all_eq_true]
    intro a ha
    have ha' : a ∈ x.data.filter (fun ch => !(ch = '.' || isPyWs ch)) := ha
    exact (List.mem_filter.mp ha').2
  · intro h
    rw [List.all_eq_true] at h ⊢
    intro a ha
    have ha' : a ∈ x.data.filter (fun ch => !(ch = '.' || isPyWs ch)) := ha
    have h1 := h a (List.mem_filter.mp ha').1
    have h2 := (List.mem_filter.mp ha').2
    cases hd : a.isDigit <;> cases hp : decide (a = '.') <;> cases hw : isPyWs a <;>
      simp_all

/-- C7 witness: a well-formed identifier normalizes to digits only. -/
theorem c7_witness :
    (clean_company_number "0403.200.393").data.all Char.isDigit = true :=
  (c7_normalizer "0403.200.393").2 (by decide)

/-- C6: when the Directors/Bestuurders marker is absent the directors
extractor returns the fixed default dict (and, being a total function,
it raises nothing), whatever the rest of the document holds. -/
theorem c6_directors_default (s : Soup) (h : s.directors_section = none) :
    extract_directors s = defaultDirectorsInfo := by
  unfold extract_directors
  rw [h]
  split <;> rfl

/-- C6 witness: the empty document. -/
theorem c6_witness : extract_directors emptySoup = defaultDirectorsInfo :=
  c6_directors_default emptySoup rfl

/-- C5: a root-relative annual-report anchor is resolved against the
base URL and classified as `annual_report`. -/
theorem c5_pdf_anchor :
    extract_pdf_links soupAnnualReportAnchor
      = [⟨"Annual report", "https://staatsbladmonitor.be/docs/jaarrekening2023.pdf",
          "jaarrekening2023.pdf", "annual_report"⟩] := by
  decide

/-- Helper: the per-table accumulation loop of
`_extract_financial_data` is concatenation over the classified
tables. -/
theorem foldl_if_flatten {α β : Type} (p : α → Bool) (f : α → List β) :
    ∀ (l : List α) (acc : List β),
      l.foldl (fun acc t => if p t then acc ++ f t else acc) acc
        = acc ++ ((l.filter p).map f).flatten := by
  intro l
  induction l with
  | nil => intro acc; simp
  | cons t ts ih =>
      intro acc
      simp only [List.foldl_cons]
      rw [ih]
      by_cases hp : p t
      · simp [hp, List.filter_cons, List.append_assoc]
      · simp [hp, List.filter_cons]

/-- C3: the financial extraction over the classified tables collects,
from each data row (header skipped), a record exactly when the row has
at least 6 cells; a row of exactly 6 cells yields `debts = ""`. -/
theorem c3_financial_rows :
    (∀ s : Soup, s.faults.fin = none →
        extract_financial_data s
          = ((s.tables.filter isFinancialTable).map
              (fun t => (t.drop 1).filterMap rowRecord)).flatten)
  ∧ (∀ cells : List String, (rowRecord cells).isSome = true ↔ 6 ≤ cells.length)
  ∧ (∀ (cells : List String) (y : FinancialYear),
        cells.length = 6 → rowRecord cells = some y → y.debts = "") := by
  refine ⟨?_, ?_, ?_⟩
  · intro s hf
    unfold extract_financial_data
    rw [hf]
    show (if false = true then _ else _) = _
    rw [if_neg (by decide)]
    exact foldl_if_flatten isFinancialTable (fun t => (t.drop 1).filterMap rowRecord) s.tables []
  · intro cells
    constructor
    · intro hs
      by_contra h6
      unfold rowRecord at hs
      rw [if_neg h6] at hs
      simp at hs
    · intro h6
      obtain ⟨y, hy⟩ := buildFinancialYearE_ok cells h6
      unfold rowRecord
      rw [if_pos h6, hy]
      rfl
  · intro cells y hlen hy
    rcases cells with _ | ⟨a, cells⟩
    · simp at hlen
    rcases cells with _ | ⟨b, cells⟩
    · simp at hlen
    rcases cells with _ | ⟨c, cells⟩
    · simp at hlen
    rcases cells with _ | ⟨d, cells⟩
    · simp at hlen
    rcases cells with _ | ⟨e, cells⟩
    · simp at hlen
    rcases cells with _ | ⟨f, cells⟩
    · simp at hlen
    rcases cells with _ | ⟨g, rs⟩
    · have hV : rowRecord [a, b, c, d, e, f]
          = some ⟨pyStrip a, pyStrip b, pyStrip c, pyStrip d, pyStrip e, pyStrip f, ""⟩ := rfl
      rw [hV] at hy
      cases hy
      rfl
    · simp only [List.length_cons] at hlen
      omega

/-- A document with one financial table holding a 6-cell data row. -/
def soupFinTable : Soup :=
  { emptySoup with
      tables := [[["Activa", "Brutomarge", "Bedrijfswinst", "Belastingen", "Eigen vermogen"],
                  ["2023-12-31", "1000", "200", "50", "10", "500"]]] }

/-- C3 witness: the extractor equation at a concrete document, and the
`debts = ""` conclusion at a concrete 6-cell row. -/
theorem c3_witness :
    extract_financial_data soupFinTable
        = ((soupFinTable.tables.filter isFinancialTable).map
            (fun t => (t.drop 1).filterMap rowRecord)).flatten
    ∧ (⟨"2023-12-31", "1000", "200", "50", "10", "500", ""⟩ : FinancialYear).debts = "" :=
  ⟨c3_financial_rows.1 soupFinTable rfl,
   c3_financial_rows.2.2 ["2023-12-31", "1000", "200", "50", "10", "500"]
     ⟨"2023-12-31", "1000", "200", "50", "10", "500", ""⟩ rfl rfl⟩

/-- A document with the same PDF anchor twice. -/
def soupDupAnchors : Soup :=
  { emptySoup with anchors := [⟨"/x.pdf", "Doc"⟩, ⟨"/x.pdf", "Doc"⟩] }

/-- A document where one PDF URL appears both as an anchor href and as
bare page text. -/
def soupCrossPass : Soup :=
  { emptySoup with
      anchors := [⟨"/docs/a.pdf", "A"⟩]
      fullText := "see https://staatsbladmonitor.be/docs/a.pdf here" }

/-- C2 counterexample: two anchors with the same href produce two
entries with the same absolute URL — the anchor pass performs no
deduplication, so the output is not duplicate-free. -/
theorem c2_counterexample :
    (extract_pdf_links soupDupAnchors).map PdfLink.url
        = ["https://staatsbladmonitor.be/x.pdf", "https://staatsbladmonitor.be/x.pdf"]
    ∧ ¬ ((extract_pdf_links soupDupAnchors).map PdfLink.url).Nodup := by
  constructor
  · decide
  · decide

/-- Helper: the bare-text pass only appends entries whose URL is new
relative to everything already collected, so its contribution is
duplicate-free and disjoint from the initial list's URLs. -/
theorem textPass_spec : ∀ (urls : List String) (init : List PdfLink),
    ∃ T, textPass init urls = init ++ T
      ∧ (T.map PdfLink.url).Nodup
      ∧ ∀ u ∈ T.map PdfLink.url, u ∉ init.map PdfLink.url := by
  intro urls
  induction urls with
  | nil =>
      intro init
      exact ⟨[], by simp [textPass], List.nodup_nil, by simp⟩
  | cons u us ih =>
      intro init
      unfold textPass
      simp only [List.foldl_cons]
      by_cases hm : u ∈ init.map PdfLink.url
      · rw [if_pos hm]
        exact ih init
      · rw [if_neg hm]
        obtain ⟨T, hT, hnd, hdisj⟩ := ih (init ++ [textUrlEntry u])
        unfold textPass at hT
        refine ⟨textUrlEntry u :: T, ?_, ?_, ?_⟩
        · rw [hT]
          simp
        · simp only [List.map_cons]
          refine List.nodup_cons.mpr ⟨?_, hnd⟩
          intro hin
          exact hdisj _ hin (by simp [textUrlEntry])
        · intro v hv
          simp only [List.map_cons, List.mem_cons] at hv
          rcases hv with rfl | hv
          · simpa [textUrlEntry] using hm
          · intro hvin
            exact hdisj v hv (by simp [hvin])

/-- C2 (amended): the anchor pass does not deduplicate (one entry per
matching anchor, duplicates possible); only the bare-text pass skips
URLs already present, so the text-pass contribution is duplicate-free
and disjoint from the anchor entries' URLs — in particular a URL
appearing once as an anchor href and again as bare text yields exactly
one entry. -/
theorem c2_pdf_dedup :
    (∀ s : Soup, s.faults.pdf = none →
        ∃ T, extract_pdf_links s = s.anchors.filterMap anchorEntry ++ T
          ∧ (T.map PdfLink.url).Nodup
          ∧ ∀ u ∈ T.map PdfLink.url, u ∉ (s.anchors.filterMap anchorEntry).map PdfLink.url)
  ∧ ((extract_pdf_links soupCrossPass).map PdfLink.url
        = ["https://staatsbladmonitor.be/docs/a.pdf"]) := by
  constructor
  · intro s hf
    have he : extract_pdf_links s
        = textPass (s.anchors.filterMap anchorEntry) (findPdfUrls s.fullText) := by
      unfold extract_pdf_links
      rw [hf]
      rfl
    rw [he]
    exact textPass_spec (findPdfUrls s.fullText) (s.anchors.filterMap anchorEntry)
  · decide

/-- C2 witness: the two-pass decomposition at a concrete document. -/
theorem c2_witness :
    ∃ T, extract_pdf_links soupCrossPass
        = soupCrossPass.anchors.filterMap anchorEntry ++ T
      ∧ (T.map PdfLink.url).Nodup
      ∧ ∀ u ∈ T.map PdfLink.url,
          u ∉ (soupCrossPass.anchors.filterMap anchorEntry).map PdfLink.url :=
  c2_pdf_dedup.1 soupCrossPass rfl

/-- A document whose publications entry has a date in the middle of
the text rather than at the start. -/
def soupPubMidDate : Soup :=
  { emptySoup with publications_section := some (some ["Note 01-02-2023 oprichting"]) }

/-- C4 counterexample: an entry whose text does not start with a
`DD-MM-YYYY` pattern (the pattern fails at position 0) is nevertheless
emitted, because the source uses `re.search`, which matches the date
anywhere in the text. -/
theorem c4_counterexample :
    extract_publications soupPubMidDate
        = [⟨"01-02-2023", "oprichting", "Note 01-02-2023 oprichting"⟩]
    ∧ matchDateAt "Note 01-02-2023 oprichting".data = none := by
  constructor
  · decide
  · decide

/-- Helper: the suffix scan of the publications pattern succeeds
exactly when the full pattern matches at some position of the text. -/
theorem searchDateTypeAux_isSome_iff : ∀ l : List Char,
    (searchDateTypeAux l).isSome = true ↔ ∃ i, (matchPubAt (l.drop i)).isSome = true := by
  intro l
  induction l with
  | nil =>
      constructor
      · intro h
        simp [searchDateTypeAux] at h
      · rintro ⟨i, hi⟩
        rw [List.drop_nil] at hi
        have hnone : matchPubAt ([] : List Char) = none := rfl
        rw [hnone] at hi
        simp at hi
  | cons c cs ih =>
      unfold searchDateTypeAux
      cases hm : matchPubAt (c :: cs) with
      | some r =>
          simp only [Option.isSome_some, true_iff]
          exact ⟨0, by rw [List.drop_zero, hm]; rfl⟩
      | none =>
          simp only []
          rw [ih]
          constructor
          · rintro ⟨i, hi⟩
            exact ⟨i + 1, by simpa using hi⟩
          · rintro ⟨i, hi⟩
            cases i with
            | zero =>
                rw [List.drop_zero, hm] at hi
                simp at hi
            | succ j => exact ⟨j, by simpa using hi⟩

/-- C4 (amended): an entry after the publications marker contributes
exactly when the pattern `DD-MM-YYYY` followed by whitespace and
further text matches at SOME position of its stripped text (not
necessarily at the start); the emitted record takes the date and the
trimmed remainder from the leftmost such match and carries the entry
text as fullText. -/
theorem c4_publications_filter :
    (∀ (s : Soup) (entries : List String),
        s.faults.pub = none → s.publications_section = some (some entries) →
          extract_publications s
            = entries.filterMap (fun raw =>
                (searchDateType (pyStrip raw)).map
                  (fun p => ⟨p.1, pyStrip p.2, pyStrip raw⟩)))
  ∧ (∀ t : String, (searchDateType t).isSome = true
        ↔ ∃ i, (matchPubAt (t.data.drop i)).isSome = true) := by
  constructor
  · intro s entries hf hs
    unfold extract_publications
    rw [hf, hs]
    rfl
  · intro t
    exact searchDateTypeAux_isSome_iff t.data

/-- C4 witness: the extractor equation at a concrete document. -/
theorem c4_witness :
    extract_publications soupPubMidDate
      = ["Note 01-02-2023 oprichting"].filterMap (fun raw =>
          (searchDateType (pyStrip raw)).map
            (fun p => ⟨p.1, pyStrip p.2, pyStrip raw⟩)) :=
  c4_publications_filter.1 soupPubMidDate ["Note 01-02-2023 oprichting"] rfl rfl

/-- C1: `search_company` always returns an envelope (it is a total
function): a fetch/parse exception yields the failure envelope
carrying the exception's message, a successful fetch yields the
success envelope whatever the document holds (faults included), and a
fault inside the basic-info extractor empties only that extractor's
contribution, leaving every other extractor's output unchanged. -/
theorem c1_envelope :
    (∀ (http : String → Except String Soup) (now n e : String),
        http (searchUrl n) = Except.error e →
          (search_company http now n).success = false
          ∧ (search_company http now n).error = some e)
  ∧ (∀ (http : String → Except String Soup) (now n : String) (soup : Soup),
        http (searchUrl n) = Except.ok soup →
          (search_company http now n).success = true
          ∧ (search_company http now n).error = none)
  ∧ (∀ (s : Soup) (m : String),
        extract_basic_info { s with faults := { s.faults with basic := some m } } = []
        ∧ extract_financial_data { s with faults := { s.faults with basic := some m } }
            = extract_financial_data s
        ∧ extract_activities { s with faults := { s.faults with basic := some m } }
            = extract_activities s
        ∧ extract_publications { s with faults := { s.faults with basic := some m } }
            = extract_publications s
        ∧ extract_directors { s with faults := { s.faults with basic := some m } }
            = extract_directors s
        ∧ extract_pdf_links { s with faults := { s.faults with basic := some m } }
            = extract_pdf_links s) := by
  refine ⟨?_, ?_, ?_⟩
  · intro http now n e h
    unfold searchUrl at h
    simp only [search_company]
    rw [h]
    exact ⟨rfl, rfl⟩
  · intro http now n soup h
    unfold searchUrl at h
    simp only [search_company]
    rw [h]
    exact ⟨rfl, rfl⟩
  · intro s m
    exact ⟨rfl, rfl, rfl, rfl, rfl, rfl⟩

/-- C1 witness: a failing and a succeeding fetch at concrete inputs. -/
theorem c1_witness :
    ((search_company (fun _ => Except.error "boom") "t0" "0403200393").success = false
      ∧ (search_company (fun _ => Except.error "boom") "t0" "0403200393").error = some "boom")
    ∧ ((search_company (fun _ => Except.ok emptySoup) "t0" "0403200393").success = true
      ∧ (search_company (fun _ => Except.ok emptySoup) "t0" "0403200393").error = none) :=
  ⟨c1_envelope.1 (fun _ => Except.error "boom") "t0" "0403200393" "boom" rfl,
   c1_envelope.2.1 (fun _ => Except.ok emptySoup) "t0" "0403200393" emptySoup rfl⟩

/-- C9 counterexample: on a fetch failure the envelope's metadata dict
carries neither the `url` key (sourceUrl) nor the
`company_number_clean` key (normalizedIdentifier), so the claim that
every call's metadata contains all six keys is false. -/
theorem c9_counterexample :
    ((search_company (fun _ => Except.error "connection error") "2024-01-01T00:00:00"
        "0403200393").metadata.lookup "url" = none)
    ∧ ((search_company (fun _ => Except.error "connection error") "2024-01-01T00:00:00"
        "0403200393").metadata.lookup "company_number_clean" = none) := by
  constructor
  · decide
  · decide

/-- C9 (amended): the success envelope's metadata carries all six keys
(source, country, request time, raw input, normalized input, URL); the
failure envelope has success=false, the exception's message, the
echoed input in its error data, and a metadata dict restricted to
source, country, request time and the raw input (no normalized
identifier, no URL). -/
theorem c9_metadata :
    (∀ (http : String → Except String Soup) (now n : String) (soup : Soup),
        http (searchUrl n) = Except.ok soup →
          (search_company http now n).metadata
            = [("source", "Staatsblad Monitor"), ("country", "Belgium"),
               ("request_time", now), ("company_number_input", n),
               ("company_number_clean", clean_company_number n),
               ("url", searchUrl n)])
  ∧ (∀ (http : String → Except String Soup) (now n e : String),
        http (searchUrl n) = Except.error e →
          (search_company http now n).success = false
          ∧ (search_company http now n).error = some e
          ∧ (search_company http now n).data
              = [("status", Val.vStr "ERROR"), ("company_number", Val.vStr n)]
          ∧ (search_company http now n).metadata
              = [("source", "Staatsblad Monitor"), ("country", "Belgium"),
                 ("request_time", now), ("company_number_input", n)]) := by
  constructor
  · intro http now n soup h
    unfold searchUrl at h
    simp only [search_company]
    rw [h]
    rfl
  · intro http now n e h
    unfold searchUrl at h
    simp only [search_company]
    rw [h]
    exact ⟨rfl, rfl, rfl, rfl⟩

/-- C9 witness: both branches at concrete inputs. -/
theorem c9_witness :
    (search_company (fun _ => Except.ok emptySoup) "t1" "0403.200.393").metadata
        = [("source", "Staatsblad Monitor"), ("country", "Belgium"),
           ("request_time", "t1"), ("company_number_input", "0403.200.393"),
           ("company_number_clean", clean_company_number "0403.200.393"),
           ("url", searchUrl "0403.200.393")]
    ∧ ((search_company (fun _ => Except.error "down") "t1" "0403.200.393").success = false
      ∧ (search_company (fun _ => Except.error "down") "t1" "0403.200.393").error = some "down"
      ∧ (search_company (fun _ => Except.error "down") "t1" "0403.200.393").data
          = [("status", Val.vStr "ERROR"), ("company_number", Val.vStr "0403.200.393")]
      ∧ (search_company (fun _ => Except.error "down") "t1" "0403.200.393").metadata
          = [("source", "Staatsblad Monitor"), ("country", "Belgium"),
             ("request_time", "t1"), ("company_number_input", "0403.200.393")]) :=
  ⟨c9_metadata.1 (fun _ => Except.ok emptySoup) "t1" "0403.200.393" emptySoup rfl,
   c9_metadata.2 (fun _ => Except.error "down") "t1" "0403.200.393" "down" rfl⟩
